import Mathlib

/-!
Verification development for `utilities.py` of the prediction-documentation
repository: a shallow embedding of `preprocess_data` and `evaluate_models`,
followed by theorems about the embedded definitions.

Modelling conventions:
* A pandas cell is a `Val`: either a rational number or `na` (NaN).
  NaN-propagation of numpy arithmetic is explicit in the `Val` operations,
  and pandas comparisons treat NaN as False (so `NaN > 0` filters the row out).
* Datetimes are rationals (absolute seconds); `pd.DatetimeIndex` on a column
  that already holds datetimes is the identity, so it is not represented.
  The pandas accessors `.dt.dayofyear`, `.dt.month`, `.dt.dayofweek`, and the
  numpy functions `sin`/`cos` (with the factor 2*pi folded in) are external
  library calls: they are abstracted as the fields of an `Libs` bundle and all
  theorems quantify over them.
* The input dataframe is assumed to carry the default RangeIndex 0..n-1; row
  labels survive the `elec_cons > 0` filter, which is why the frequency scan
  below works with (original position, row) pairs.
* Python exceptions are `Except String`; `int()` is truncation toward zero;
  Python slicing `a[:t]` / `a[t:]` with a possibly negative `t` is
  `pyTake` / `pyDrop`.
-/

deriving instance DecidableEq for Except

/-- A dataframe cell: a rational number or a missing value (numpy NaN). -/
inductive Val where
  | num (q : ℚ)
  | na
deriving DecidableEq, Repr

/-- NaN test for a cell. -/
def Val.isNa : Val → Bool
  | .na => true
  | .num _ => false

/-- numpy subtraction on cells: NaN propagates. -/
def vsub : Val → Val → Val
  | .num a, .num b => .num (a - b)
  | _, _ => .na

/-- numpy division on cells: NaN propagates; division by zero yields NaN
(the only uses below guard the denominator, matching inf/NaN outcomes). -/
def vdiv : Val → Val → Val
  | .num a, .num b => if b = 0 then .na else .num (a / b)
  | _, _ => .na

/-- pandas `elec_cons > 0` on one cell: NaN compares False. -/
def elecPos : Val → Bool
  | .num q => decide (0 < q)
  | .na => false

/-- numpy nanmax over a column: the maximum of the non-NaN entries,
NaN when there is none (all-NaN or empty column). -/
def valMax (xs : List Val) : Val :=
  xs.foldl
    (fun acc x =>
      match acc, x with
      | .na, v => v
      | v, .na => v
      | .num a, .num b => .num (max a b))
    .na

/-- numpy nanmin over a column. -/
def valMin (xs : List Val) : Val :=
  xs.foldl
    (fun acc x =>
      match acc, x with
      | .na, v => v
      | v, .na => v
      | .num a, .num b => .num (min a b))
    .na

/-- pandas `Series.min()` on a never-null rational column: `none` on empty. -/
def qMin : List ℚ → Option ℚ
  | [] => none
  | h :: t => some (t.foldl min h)

/-- pandas `Series.max()` on a never-null rational column: `none` on empty. -/
def qMax : List ℚ → Option ℚ
  | [] => none
  | h :: t => some (t.foldl max h)

/-- External library functions used by `preprocess_data` that the embedding
abstracts: pandas calendar accessors and the trigonometric functions
(`sinQ x` stands for `np.sin(2*pi*x)`, similarly `cosQ`). Every theorem
below quantifies over this bundle. -/
structure Libs where
  sinQ : ℚ → ℚ
  cosQ : ℚ → ℚ
  yday : ℚ → ℚ
  month : ℚ → ℚ
  wday : ℚ → ℚ

/-- One row of the input dataframe of `preprocess_data` (lines 18-53):
the required schema columns plus arbitrary extra numeric columns,
extra categorical (string) columns, and whichever of the auxiliary
leakage-prone columns of `columns_remove` are present. -/
structure RawRow where
  timestamp : ℚ
  elec_cons : Val
  sun_rise_set : Option String
  week_day_end : String
  num_time : Val
  day_of_week : Val
  extraNum : List Val
  extraCat : List String
  aux : List Val
deriving DecidableEq, Repr

/-- The cyclical encoding of lines 69-71 for a never-null ordinal column
(`yday`, `month`, `wday`): value `f(v / m)` where `m` is the column maximum;
when the maximum is 0 (or the table is empty) numpy produces inf/NaN, hence
`na`. `f` stands for `np.sin (2*pi*_)` or `np.cos (2*pi*_)`. -/
def cycQ (f : ℚ → ℚ) (v : ℚ) (m : Option ℚ) : Val :=
  match m with
  | none => .na
  | some mv => if mv = 0 then .na else .num (f (v / mv))

/-- The cyclical encoding for the nullable `num_time` column: NaN input or
all-NaN/zero maximum gives NaN. -/
def cycV (f : ℚ → ℚ) (v : Val) (m : Val) : Val :=
  match v, m with
  | .num a, .num mv => if mv = 0 then .na else .num (f (a / mv))
  | _, _ => .na

/-- Column maximum of the derived `yday` column over the whole table. -/
def ydayMax (E : Libs) (df : List RawRow) : Option ℚ :=
  qMax (df.map (fun r => E.yday r.timestamp))

/-- Column maximum of the derived `month` column over the whole table. -/
def monthMax (E : Libs) (df : List RawRow) : Option ℚ :=
  qMax (df.map (fun r => E.month r.timestamp))

/-- Column maximum of the derived `wday` column over the whole table. -/
def wdayMax (E : Libs) (df : List RawRow) : Option ℚ :=
  qMax (df.map (fun r => E.wday r.timestamp))

/-- Column maximum of the `num_time` column over the whole table (nanmax). -/
def numTimeMax (df : List RawRow) : Val :=
  valMax (df.map (fun r => r.num_time))

/-- Minimum of the `timestamp` column (line 77's `df['timestamp'].min()`). -/
def tsMin (df : List RawRow) : Option ℚ :=
  qMin (df.map (fun r => r.timestamp))

/-- One row of the caller's dataframe after the in-place mutations of
lines 55-71: `sun_rise_set` nulls filled with "neither", `timestamp`
converted to a datetime (identity on our datetime rationals), the ordinal
`yday`/`month`/`wday` columns and the eight derived sine/cosine columns
added. Line 74 rebinds the local `df` to a column-dropped copy, so this is
exactly what the caller observes after `preprocess_data` returns. -/
structure MutRow where
  timestamp : ℚ
  elec_cons : Val
  sun_rise_set : String
  week_day_end : String
  num_time : Val
  day_of_week : Val
  extraNum : List Val
  extraCat : List String
  aux : List Val
  yday : ℚ
  month : ℚ
  wday : ℚ
  yday_sin : Val
  yday_cos : Val
  month_sin : Val
  month_cos : Val
  wday_sin : Val
  wday_cos : Val
  num_time_sin : Val
  num_time_cos : Val
deriving DecidableEq, Repr

/-- The in-place mutation of one row (lines 55-71), given the whole-table
column maxima that the cyclical encodings divide by. -/
def mutRow (E : Libs) (ym mm wm : Option ℚ) (ntm : Val) (r : RawRow) : MutRow :=
  { timestamp := r.timestamp
    elec_cons := r.elec_cons
    sun_rise_set := r.sun_rise_set.getD "neither"
    week_day_end := r.week_day_end
    num_time := r.num_time
    day_of_week := r.day_of_week
    extraNum := r.extraNum
    extraCat := r.extraCat
    aux := r.aux
    yday := E.yday r.timestamp
    month := E.month r.timestamp
    wday := E.wday r.timestamp
    yday_sin := cycQ E.sinQ (E.yday r.timestamp) ym
    yday_cos := cycQ E.cosQ (E.yday r.timestamp) ym
    month_sin := cycQ E.sinQ (E.month r.timestamp) mm
    month_cos := cycQ E.cosQ (E.month r.timestamp) mm
    wday_sin := cycQ E.sinQ (E.wday r.timestamp) wm
    wday_cos := cycQ E.cosQ (E.wday r.timestamp) wm
    num_time_sin := cycV E.sinQ r.num_time ntm
    num_time_cos := cycV E.cosQ r.num_time ntm }

/-- The caller's table after `preprocess_data` has run: lines 55-71 mutate
the caller's frame in place, and every later step operates on rebound
copies (line 74 onward), so the caller sees exactly this. -/
def mutTable (E : Libs) (df : List RawRow) : List MutRow :=
  df.map (mutRow E (ydayMax E df) (monthMax E df) (wdayMax E df) (numTimeMax df))

/-- Sorted distinct categories of a string column, as `LabelEncoder` and
`get_dummies` discover them (np.unique sorts; only distinctness matters to
any property below, the order fixes the codes/column order). -/
def cats (xs : List String) : List String :=
  xs.dedup

/-- Distinct categories of the `week_day_end` column over the whole table
(line 82: `LabelEncoder.fit_transform` sees every row, filtering happens
later). -/
def wdeCats (df : List RawRow) : List String :=
  cats (df.map (fun r => r.week_day_end))

/-- Distinct categories of the filled `sun_rise_set` column over the whole
table (line 85: `get_dummies` sees every row). -/
def srsCats (df : List RawRow) : List String :=
  cats (df.map (fun r => r.sun_rise_set.getD "neither"))

/-- Number of extra categorical columns (taken from the first row; a real
dataframe has uniform arity). -/
def nCat (df : List RawRow) : ℕ :=
  match df with
  | [] => 0
  | r :: _ => r.extraCat.length

/-- Distinct categories of the j-th extra categorical column. -/
def catColCats (df : List RawRow) (j : ℕ) : List String :=
  cats (df.map (fun r => r.extraCat.getD j ""))

/-- One-hot indicator cells for a category value against a category list
(`pd.get_dummies`, line 85): one 0/1 numeric column per distinct category. -/
def oneHot (cs : List String) (v : String) : List Val :=
  cs.map (fun c => if v = c then .num 1 else .num 0)

/-- A row of the processed feature table right after line 96: `timestamp`
is relative seconds (line 77), `elec_cons` is kept aside for filtering and
target extraction (lines 88-91), and `feats` is the feature vector after
the ordered-time columns were dropped (line 74), `week_day_end` was
label-encoded (line 82), the table was one-hot encoded (line 85) and the
target/auxiliary columns were removed (lines 93-96). -/
structure PRow where
  ts : ℚ
  elec : Val
  feats : List Val
deriving DecidableEq, Repr

/-- Lines 74-96 applied to one mutated row, given the whole-table statistics
(minimum timestamp, category lists). The feature order fixes timestamp
first, then extra numeric columns, the label-encoded `week_day_end`, the
eight cyclical columns, then the one-hot indicator columns. -/
def procRow (df : List RawRow) (m : MutRow) : PRow :=
  { ts := m.timestamp - (tsMin df).getD 0
    elec := m.elec_cons
    feats :=
      .num (m.timestamp - (tsMin df).getD 0) ::
      m.extraNum ++
      [.num ((wdeCats df).indexOf m.week_day_end : ℕ)] ++
      [m.yday_sin, m.yday_cos, m.month_sin, m.month_cos,
       m.wday_sin, m.wday_cos, m.num_time_sin, m.num_time_cos] ++
      oneHot (srsCats df) m.sun_rise_set ++
      (List.range (nCat df)).flatMap
        (fun j => oneHot (catColCats df j) (m.extraCat.getD j "")) }

/-- The processed table before the `elec_cons > 0` filter (state of the
local `df` at line 96, with `elec_cons` still attached). -/
def procTable (E : Libs) (df : List RawRow) : List PRow :=
  (mutTable E df).map (procRow df)

/-- The filtered table (line 88's `df = df[df['elec_cons'] > 0]`) with each
row paired with its original positional label: pandas filtering keeps the
original RangeIndex labels, which the frequency scan then indexes by. -/
def keptL (E : Libs) (df : List RawRow) : List (ℕ × PRow) :=
  (procTable E df).enum.filter (fun p => elecPos p.2.elec)

/-- The target vector (line 91): the `elec_cons` values of the filtered
table, in order. -/
def targetsAll (E : Libs) (df : List RawRow) : List Val :=
  (keptL E df).map (fun p => p.2.elec)

/-- The feature matrix handed to the splitter (line 115's `df`): one
feature vector per kept row, in order. -/
def featMat (E : Libs) (df : List RawRow) : List (List Val) :=
  (keptL E df).map (fun p => p.2.feats)

/-- Label-based lookup `df['timestamp'][i]` on the filtered table:
`none` is a Python `KeyError` (the label was filtered out or never
existed). -/
def tsLook (E : Libs) (df : List RawRow) (i : ℕ) : Option ℚ :=
  ((keptL E df).find? (fun p => p.1 = i)).map (fun p => p.2.ts)

/-- The frequency-inference loop of lines 98-106, with explicit fuel (the
loop advances its label each iteration, so `df.length + 1` fuel always
suffices to reach the failing lookup).  Each iteration evaluates
`df['timestamp'][index+1] - df['timestamp'][index]` — the `index+1` lookup
first, as Python does — and exits as soon as the difference is at least 1
(the `while frequency < 1` condition). A missing label raises `KeyError`. -/
def freqScanA (look : ℕ → Option ℚ) : ℕ → ℕ → Except String ℚ
  | _, 0 => .error "KeyError"
  | i, fuel + 1 =>
    match look (i + 1) with
    | none => .error ("KeyError: " ++ toString (i + 1))
    | some b =>
      match look i with
      | none => .error ("KeyError: " ++ toString i)
      | some a => if 1 ≤ b - a then .ok (b - a) else freqScanA look (i + 1) fuel

/-- The sampling interval `frequency` that lines 98-106 compute for a given
input table, or the error they raise. -/
def inferredFrequency (E : Libs) (df : List RawRow) : Except String ℚ :=
  freqScanA (tsLook E df) 0 (df.length + 1)

/-- Python `int()` applied to a rational: truncation toward zero. -/
def pyInt (q : ℚ) : ℤ :=
  if 0 ≤ q then ⌊q⌋ else ⌈q⌉

/-- Python/pandas slice `a[:t]` for a possibly negative `t`. -/
def pyTake (t : ℤ) (xs : List α) : List α :=
  if 0 ≤ t then xs.take t.toNat else xs.take (xs.length - (-t).toNat)

/-- Python/pandas slice `a[t:]` for a possibly negative `t`. -/
def pyDrop (t : ℤ) (xs : List α) : List α :=
  if 0 ≤ t then xs.drop t.toNat else xs.drop (xs.length - (-t).toNat)

/-- The split boundary of lines 109-112 given the inferred `frequency`:
`daily_observations = (60*60*24) / frequency` and
`test_start = int(len(df) - test_days * daily_observations)`. -/
def tIdx (E : Libs) (df : List RawRow) (test_days f : ℚ) : ℤ :=
  pyInt (((keptL E df).length : ℚ) - test_days * (86400 / f))

/-- The split boundary of line 112 for an input table, propagating a
frequency-inference failure. -/
def splitIndexE (E : Libs) (df : List RawRow) (test_days : ℚ) : Except String ℤ :=
  (inferredFrequency E df).map (tIdx E df test_days)

/-- `MinMaxScaler.fit` (line 126): per-column (nanmin, nanmax) over the
training matrix, one pair per column of the first row. -/
def mmFit (rows : List (List Val)) : List (Val × Val) :=
  match rows with
  | [] => []
  | r0 :: _ =>
    (List.range r0.length).map
      (fun j => (valMin (rows.map (fun r => r.getD j .na)),
                 valMax (rows.map (fun r => r.getD j .na))))

/-- `MinMaxScaler.transform` of one row for feature range (0,1):
`(x - min) / (max - min)`, with sklearn's zero-range handling (a constant
column divides by 1) and NaN propagation. -/
def mmTransform (params : List (Val × Val)) (row : List Val) : List Val :=
  List.zipWith
    (fun (p : Val × Val) x =>
      match vsub p.2 p.1 with
      | .num dr => vdiv (vsub x p.1) (.num (if dr = 0 then 1 else dr))
      | .na => .na)
    params row

/-- The scaling block of lines 121-136: sklearn's `fit` and `transform`
both raise on an empty matrix; otherwise fit on the training matrix only
and apply the identical fitted transform to both matrices. -/
def scaleBlock (tr te : List (List Val)) :
    Except String (List (List Val) × List (List Val)) :=
  if tr.isEmpty then
    .error "Found array with 0 sample(s) while a minimum of 1 is required."
  else if te.isEmpty then
    .error "Found array with 0 sample(s) while a minimum of 1 is required."
  else
    .ok (tr.map (mmTransform (mmFit tr)), te.map (mmTransform (mmFit tr)))

/-- The `if scale:` guard around the scaling block (line 121). -/
def scaleMaybe (scale : Bool) (tr te : List (List Val)) :
    Except String (List (List Val) × List (List Val)) :=
  if scale then scaleBlock tr te else .ok (tr, te)

/-- Whether a feature matrix contains a missing value
(`np.any(x.isnull())`). -/
def hasNullM (m : List (List Val)) : Bool :=
  m.any (fun r => r.any Val.isNa)

/-- The quadruple `preprocess_data` returns (line 142). -/
structure PResult where
  train : List (List Val)
  train_targets : List Val
  test : List (List Val)
  test_targets : List Val
deriving DecidableEq, Repr

/-- Shallow embedding of `preprocess_data` (utilities.py lines 18-142):
feature engineering and encoding (via `procTable`), the `elec_cons > 0`
filter and target extraction (via `keptL`/`targetsAll`/`featMat`),
frequency inference (lines 98-106), the chronological split (lines
109-118), optional scaling (lines 121-136), and the final missing-value
assertions (lines 139-140). Errors carry the raised exception's message. -/
def preprocess_data (E : Libs) (df : List RawRow) (test_days : ℚ) (scale : Bool) :
    Except String PResult :=
  match inferredFrequency E df with
  | .error e => .error e
  | .ok f =>
    match scaleMaybe scale (pyTake (tIdx E df test_days f) (featMat E df))
        (pyDrop (tIdx E df test_days f) (featMat E df)) with
    | .error e => .error e
    | .ok (trS, teS) =>
      if hasNullM trS then .error "Training Data Contains Missing Values!"
      else if hasNullM teS then .error "Testing Data Contains Missing Values!"
      else .ok { train := trS
                 train_targets := pyTake (tIdx E df test_days f) (targetsAll E df)
                 test := teS
                 test_targets := pyDrop (tIdx E df test_days f) (targetsAll E df) }

/-- The final train/test feature tables as they stand at lines 139-140,
just before the missing-value assertions. -/
def finalTables (E : Libs) (df : List RawRow) (test_days : ℚ) (scale : Bool) :
    Except String (List (List Val) × List (List Val)) :=
  match inferredFrequency E df with
  | .error e => .error e
  | .ok f =>
    scaleMaybe scale (pyTake (tIdx E df test_days f) (featMat E df))
      (pyDrop (tIdx E df test_days f) (featMat E df))

/-- Spec-side definition, written from the specification's words for the
frequency-inference claim: the first strictly positive difference between
consecutive values of a column, scanning from the start. Compared against
`inferredFrequency`, which embeds the source loop. -/
def specFirstPosDiff : List ℚ → Option ℚ
  | a :: b :: t => if 0 < b - a then some (b - a) else specFirstPosDiff (b :: t)
  | _ => none

/-- One model configuration of the fixed roster of `evaluate_models`
(lines 173-202): sklearn class, numeric hyperparameters, string
hyperparameters, and the `model_name` passed to `implement_model`. -/
structure MConfig where
  name : String
  kind : String
  hyperNum : List (String × ℚ)
  hyperStr : List (String × String)
deriving DecidableEq, Repr

/-- The fixed six-model roster of `evaluate_models` (lines 173-202), with
the hyperparameters given in the source. -/
def roster : List MConfig :=
  [ { name := "elasticnet", kind := "ElasticNet",
      hyperNum := [("alpha", 1), ("l1_ratio", 1/2)], hyperStr := [] },
    { name := "knn", kind := "KNeighborsRegressor", hyperNum := [], hyperStr := [] },
    { name := "svm", kind := "SVR", hyperNum := [], hyperStr := [] },
    { name := "rf", kind := "RandomForestRegressor",
      hyperNum := [("n_estimators", 100), ("n_jobs", -1)], hyperStr := [] },
    { name := "et", kind := "ExtraTreesRegressor",
      hyperNum := [("n_estimators", 100), ("n_jobs", -1)], hyperStr := [] },
    { name := "adaboost", kind := "AdaBoostRegressor",
      hyperNum := [("n_estimators", 1000), ("learning_rate", 1/20)],
      hyperStr := [("loss", "exponential")] } ]

/-- One row of the comparison table of `evaluate_models`: columns
`model`, `train_time`, `test_time`, `mape` (line 209). -/
structure MRec where
  model : String
  train_time : ℚ
  test_time : ℚ
  mape : ℚ
deriving DecidableEq, Repr

/-- Modelled from the spec: `implement_model` (the Model Runner of §4.2) is
called by `evaluate_models` but its definition is absent from src. Per the
spec it fits the model on the training data, times training and prediction,
and computes the MAPE of the predictions; those externally produced numbers
are abstracted as an `oracle` (one triple of train time, test time and MAPE
per model configuration and preprocessed dataset), and `implement_model`
packages them with the model name into one result record. -/
def implement_model (oracle : MConfig → PResult → ℚ × ℚ × ℚ)
    (cfg : MConfig) (d : PResult) : MRec :=
  { model := cfg.name
    train_time := (oracle cfg d).1
    test_time := (oracle cfg d).2.1
    mape := (oracle cfg d).2.2 }

/-- The cast `results.iloc[:, 1:].astype(np.float32)` of line 212 applied to
one record: the numeric columns pass through the float32 coercion `f32`
(abstracted, like all floating-point behaviour, as a function on ℚ), the
`model` column is untouched. -/
def coerce32 (f32 : ℚ → ℚ) (r : MRec) : MRec :=
  { model := r.model
    train_time := f32 r.train_time
    test_time := f32 r.test_time
    mape := f32 r.mape }

/-- Shallow embedding of `evaluate_models` (lines 145-214): preprocess with
the fixed defaults `test_days = 183`, `scale = True`; on any preprocessing
error, print the message (modelled as the returned log list) and return
`None`; otherwise run the six-model roster through `implement_model`,
stack the records into one table and coerce the numeric columns to
float32. -/
def evaluate_models (E : Libs) (oracle : MConfig → PResult → ℚ × ℚ × ℚ)
    (f32 : ℚ → ℚ) (df : List RawRow) : List String × Option (List MRec) :=
  match preprocess_data E df 183 true with
  | .error e => (["Error processing data:  " ++ e], none)
  | .ok r => ([], some (roster.map (fun cfg => coerce32 f32 (implement_model oracle cfg r))))

/-- A concrete instantiation of the abstracted library functions, used by
the witness theorems (every claim theorem holds for all `Libs`). -/
def libs1 : Libs :=
  { sinQ := fun _ => 1, cosQ := fun _ => 1,
    yday := fun _ => 1, month := fun _ => 1, wday := fun _ => 1 }

/-- A minimal well-formed input row for the witness tables. -/
def mkRow (ts : ℚ) (ec : Val) : RawRow :=
  { timestamp := ts, elec_cons := ec, sun_rise_set := none,
    week_day_end := "weekday", num_time := .num 1, day_of_week := .num 0,
    extraNum := [], extraCat := [], aux := [] }

/-- Witness table: four rows sampled daily, all targets positive. -/
def tbl4 : List RawRow :=
  [mkRow 0 (.num 1), mkRow 86400 (.num 1), mkRow 172800 (.num 1), mkRow 259200 (.num 1)]

/-- Counterexample table for frequency inference: consecutive timestamp
differences 1/2 and 3/2 seconds. -/
def tblHalf : List RawRow :=
  [mkRow 0 (.num 1), mkRow (1/2) (.num 1), mkRow 2 (.num 1)]

/-- Counterexample table for the split formula: ten rows spaced 69120
seconds (0.8 days), so observations-per-day is 5/4. -/
def tblTen : List RawRow :=
  (List.range 10).map (fun i => mkRow (69120 * i) (.num 1))

/-- Counterexample table for the split-boundary invariant: three daily rows
(a test period longer than the data makes the split index negative). -/
def tbl3d : List RawRow :=
  [mkRow 0 (.num 1), mkRow 86400 (.num 1), mkRow 172800 (.num 1)]

/-- Witness table for the evaluation harness: three rows spaced 183 days,
so `test_days = 183` splits off exactly the last row. -/
def tblW : List RawRow :=
  [mkRow 0 (.num 1), mkRow 15811200 (.num 1), mkRow 31622400 (.num 1)]

/-- Witness table with a NaN feature cell in every row (an extra numeric
column that is entirely missing). -/
def tblNa : List RawRow :=
  [{ mkRow 0 (.num 1) with extraNum := [.na] },
   { mkRow 86400 (.num 1) with extraNum := [.na] },
   { mkRow 172800 (.num 1) with extraNum := [.na] }]

/-- The value `preprocess_data libs1 tbl4 1 True` computes (checked by the
witness theorems): three scaled training rows, one scaled testing row. -/
def res4s : PResult :=
  { train := [List.replicate 11 (.num 0),
              .num (1/2) :: List.replicate 10 (.num 0),
              .num 1 :: List.replicate 10 (.num 0)]
    train_targets := List.replicate 3 (.num 1)
    test := [.num (3/2) :: List.replicate 10 (.num 0)]
    test_targets := [.num 1] }

/-- The value `preprocess_data libs1 tbl3d 5 False` computes: the negative
split index -2 leaves one training row and two testing rows. -/
def res3d : PResult :=
  { train := [.num 0 :: .num 0 :: List.replicate 9 (.num 1)]
    train_targets := [.num 1]
    test := [.num 86400 :: .num 0 :: List.replicate 9 (.num 1),
             .num 172800 :: .num 0 :: List.replicate 9 (.num 1)]
    test_targets := [.num 1, .num 1] }

/-- The value `preprocess_data libs1 tblW 183 True` computes. -/
def resW : PResult :=
  { train := [List.replicate 11 (.num 0), .num 1 :: List.replicate 10 (.num 0)]
    train_targets := [.num 1, .num 1]
    test := [.num 2 :: List.replicate 10 (.num 0)]
    test_targets := [.num 1] }

/-- The scaled training table `finalTables libs1 tblNa 1 True` computes: its
second column (the all-missing extra feature) is NaN throughout. -/
def trNa : List (List Val) :=
  [.num 0 :: .na :: List.replicate 10 (.num 0),
   .num 1 :: .na :: List.replicate 10 (.num 0)]

/-- The scaled testing table `finalTables libs1 tblNa 1 True` computes. -/
def teNa : List (List Val) :=
  [.num 2 :: .na :: List.replicate 10 (.num 0)]

/-- The value `preprocess_data libs1 tbl4 1 False` computes (the unscaled
variant of `res4s`). -/
def res4u : PResult :=
  { train := [.num 0 :: .num 0 :: List.replicate 9 (.num 1),
              .num 86400 :: .num 0 :: List.replicate 9 (.num 1),
              .num 172800 :: .num 0 :: List.replicate 9 (.num 1)]
    train_targets := List.replicate 3 (.num 1)
    test := [.num 259200 :: .num 0 :: List.replicate 9 (.num 1)]
    test_targets := [.num 1] }

/-- The value `preprocess_data libs1 tblTen 1 False` computes: the split
index 8 leaves eight training rows and two testing rows. -/
def resTen : PResult :=
  { train := (List.range 8).map
      (fun i => .num (69120 * i) :: .num 0 :: List.replicate 9 (.num 1))
    train_targets := List.replicate 8 (.num 1)
    test := [.num (69120 * 8) :: .num 0 :: List.replicate 9 (.num 1),
             .num (69120 * 9) :: .num 0 :: List.replicate 9 (.num 1)]
    test_targets := List.replicate 2 (.num 1) }

/-- A concrete oracle for the Model Runner abstraction, used by witnesses. -/
def oracle0 : MConfig → PResult → ℚ × ℚ × ℚ := fun _ _ => (1, 2, 3)

/-- A second, different concrete oracle, used to witness that the harness
consults no model on the failure path. -/
def oracle1 : MConfig → PResult → ℚ × ℚ × ℚ := fun _ _ => (4, 5, 6)

/-! Helper lemmas shared by the claim theorems. -/

/-- A Python slice pair `a[:t]`, `a[t:]` partitions the list: the two
pieces' lengths sum to the original length, for every integer `t`. -/
theorem pyTake_pyDrop_length (t : ℤ) (xs : List α) :
    (pyTake t xs).length + (pyDrop t xs).length = xs.length := by
  unfold pyTake pyDrop
  split
  · simp only [List.length_take, List.length_drop]
    omega
  · simp only [List.length_take, List.length_drop]
    omega

/-- The length of a Python slice depends only on the list's length. -/
theorem pyTake_length_congr (t : ℤ) (xs : List α) (ys : List β)
    (h : xs.length = ys.length) : (pyTake t xs).length = (pyTake t ys).length := by
  unfold pyTake
  split <;> simp [List.length_take, h]

/-- The length of a Python suffix slice depends only on the list's length. -/
theorem pyDrop_length_congr (t : ℤ) (xs : List α) (ys : List β)
    (h : xs.length = ys.length) : (pyDrop t xs).length = (pyDrop t ys).length := by
  unfold pyDrop
  split <;> simp [List.length_drop, h]

/-- Membership in a Python prefix slice implies membership in the list. -/
theorem mem_pyTake {x : α} {t : ℤ} {xs : List α} (h : x ∈ pyTake t xs) : x ∈ xs := by
  unfold pyTake at h
  split at h <;> exact List.take_subset _ _ h

/-- Membership in a Python suffix slice implies membership in the list. -/
theorem mem_pyDrop {x : α} {t : ℤ} {xs : List α} (h : x ∈ pyDrop t xs) : x ∈ xs := by
  unfold pyDrop at h
  split at h <;> exact List.drop_subset _ _ h

/-- The feature matrix and the target vector both have one entry per kept
row. -/
theorem featMat_targets_length (E : Libs) (df : List RawRow) :
    (featMat E df).length = (keptL E df).length ∧
    (targetsAll E df).length = (keptL E df).length := by
  constructor <;> simp [featMat, targetsAll]

/-- Every target the filter keeps is a strictly positive number. -/
theorem targetsAll_pos (E : Libs) (df : List RawRow) :
    ∀ v ∈ targetsAll E df, ∃ q : ℚ, v = .num q ∧ 0 < q := by
  intro v hv
  simp only [targetsAll, keptL, List.mem_map, List.mem_filter] at hv
  obtain ⟨p, ⟨hmem, hkeep⟩, hpv⟩ := hv
  cases hel : p.2.elec with
  | na => simp [elecPos, hel] at hkeep
  | num q =>
    refine ⟨q, by rw [← hpv, hel], ?_⟩
    rw [hel] at hkeep
    simpa [elecPos] using hkeep

/-- The frequency loop only exits with a difference of at least one second,
and that difference is the first one: every earlier pair of consecutive
labels exists and differs by less than one. -/
theorem freqScanA_ok_char (look : ℕ → Option ℚ) (fuel : ℕ) :
    ∀ i f, freqScanA look i fuel = .ok f →
      1 ≤ f ∧ ∃ k, i ≤ k ∧
        (∃ a b, look k = some a ∧ look (k + 1) = some b ∧ b - a = f) ∧
        ∀ j, i ≤ j → j < k →
          ∃ a b, look j = some a ∧ look (j + 1) = some b ∧ b - a < 1 := by
  induction fuel with
  | zero => intro i f h; simp [freqScanA] at h
  | succ n ih =>
    intro i f h
    unfold freqScanA at h
    cases hb : look (i + 1) with
    | none => simp [hb] at h
    | some b =>
      cases ha : look i with
      | none => simp [hb, ha] at h
      | some a =>
        simp only [hb, ha] at h
        by_cases hge : 1 ≤ b - a
        · rw [if_pos hge] at h
          injection h with h
          subst h
          exact ⟨hge, i, le_refl i, ⟨a, b, ha, hb, rfl⟩, fun j h1 h2 => absurd (lt_of_le_of_lt h1 h2) (lt_irrefl i)⟩
        · rw [if_neg hge] at h
          obtain ⟨h1, k, hk, hw, hfirst⟩ := ih (i + 1) f h
          refine ⟨h1, k, le_trans (Nat.le_succ i) hk, hw, fun j hj1 hj2 => ?_⟩
          rcases Nat.eq_or_lt_of_le hj1 with heq | hlt
          · subst heq
            exact ⟨a, b, ha, hb, lt_of_not_le hge⟩
          · exact hfirst j hlt hj2

/-- A successfully inferred sampling interval is at least one second. -/
theorem inferredFrequency_ge_one (E : Libs) (df : List RawRow) (f : ℚ)
    (h : inferredFrequency E df = .ok f) : 1 ≤ f :=
  (freqScanA_ok_char (tsLook E df) (df.length + 1) 0 f h).1

/-- Characterization of every successful run of `preprocess_data`: the
frequency was inferred, the feature matrix and the target vector were split
at `tIdx`, the feature partitions were passed through one common map `g`
(the fitted min-max transform when `scale` is true, the identity when it is
false), the targets were not transformed, and the final feature tables
contain no missing value. -/
theorem preprocess_ok_char (E : Libs) (df : List RawRow) (td : ℚ) (sc : Bool)
    (r : PResult) (h : preprocess_data E df td sc = .ok r) :
    ∃ f g, inferredFrequency E df = .ok f ∧
      r.train = (pyTake (tIdx E df td f) (featMat E df)).map g ∧
      r.test = (pyDrop (tIdx E df td f) (featMat E df)).map g ∧
      r.train_targets = pyTake (tIdx E df td f) (targetsAll E df) ∧
      r.test_targets = pyDrop (tIdx E df td f) (targetsAll E df) ∧
      (sc = true → g = mmTransform (mmFit (pyTake (tIdx E df td f) (featMat E df)))) ∧
      (sc = false → g = id) ∧
      hasNullM r.train = false ∧ hasNullM r.test = false := by
  unfold preprocess_data at h
  cases hf : inferredFrequency E df with
  | error e => simp [hf] at h
  | ok f =>
    simp only [hf] at h
    cases hs : scaleMaybe sc (pyTake (tIdx E df td f) (featMat E df))
        (pyDrop (tIdx E df td f) (featMat E df)) with
    | error e => simp [hs] at h
    | ok p =>
      obtain ⟨trS, teS⟩ := p
      simp only [hs] at h
      by_cases h1 : hasNullM trS = true
      · simp only [h1, if_true] at h; cases h
      · rw [if_neg h1] at h
        by_cases h2 : hasNullM teS = true
        · simp only [h2, if_true] at h; cases h
        · rw [if_neg h2] at h
          injection h with h
          subst h
          cases sc with
          | false =>
            obtain ⟨e1, e2⟩ :
                pyTake (tIdx E df td f) (featMat E df) = trS ∧
                pyDrop (tIdx E df td f) (featMat E df) = teS := by
              simpa [scaleMaybe] using hs
            subst e1
            subst e2
            refine ⟨f, id, rfl, by simp, by simp, rfl, rfl, by simp, fun _ => rfl, ?_, ?_⟩
            · simpa using h1
            · simpa using h2
          | true =>
            simp only [scaleMaybe, if_pos rfl] at hs
            unfold scaleBlock at hs
            by_cases he1 : (pyTake (tIdx E df td f) (featMat E df)).isEmpty
            · rw [if_pos he1] at hs; cases hs
            · rw [if_neg he1] at hs
              by_cases he2 : (pyDrop (tIdx E df td f) (featMat E df)).isEmpty
              · rw [if_pos he2] at hs; cases hs
              · rw [if_neg he2] at hs
                obtain ⟨e1, e2⟩ :
                    (pyTake (tIdx E df td f) (featMat E df)).map
                      (mmTransform (mmFit (pyTake (tIdx E df td f) (featMat E df)))) = trS ∧
                    (pyDrop (tIdx E df td f) (featMat E df)).map
                      (mmTransform (mmFit (pyTake (tIdx E df td f) (featMat E df)))) = teS := by
                  simpa using hs
                subst e1
                subst e2
                refine ⟨f, mmTransform (mmFit (pyTake (tIdx E df td f) (featMat E df))),
                  rfl, rfl, rfl, rfl, rfl, fun _ => rfl, by simp, ?_, ?_⟩
                · simpa using h1
                · simpa using h2

/-! The claim theorems. -/

/-- C2 (amended): the inferred sampling interval is the first difference of
at least one second between timestamps at consecutive original row
positions of the filtered table (the `while frequency < 1` loop skips
differences below one second, duplicates included); every earlier
consecutive pair exists and differs by less than one second;
`daily_observations` is `86400 / interval` and feeds the split index; and
when the scan fails (no such difference before a missing label or the end
of the data), `preprocess_data` fails with that error instead of returning
a result. -/
theorem C2_frequency_inference (E : Libs) (df : List RawRow) (td : ℚ) (sc : Bool) :
    (∀ f, inferredFrequency E df = .ok f →
      1 ≤ f ∧
      splitIndexE E df td = .ok (pyInt (((keptL E df).length : ℚ) - td * (86400 / f))) ∧
      ∃ k a b, tsLook E df k = some a ∧ tsLook E df (k + 1) = some b ∧ b - a = f ∧
        ∀ j < k, ∃ a2 b2, tsLook E df j = some a2 ∧ tsLook E df (j + 1) = some b2 ∧
          b2 - a2 < 1) ∧
    (∀ e, inferredFrequency E df = .error e → preprocess_data E df td sc = .error e) := by
  constructor
  · intro f hf
    obtain ⟨h1, k, -, ⟨a, b, ha, hb, hab⟩, hfirst⟩ :=
      freqScanA_ok_char (tsLook E df) (df.length + 1) 0 f hf
    exact ⟨h1, by simp [splitIndexE, tIdx, hf, Except.map], k, a, b, ha, hb, hab,
      fun j hj => hfirst j (Nat.zero_le j) hj⟩
  · intro e he
    simp [preprocess_data, he]

/-- C3 (amended): on every successful run the split index is
`int(total_rows - test_days * observations_per_day)` with Python `int()`
truncation (embedded as `pyInt`, equal to `total_rows` minus the ceiling of
the product whenever the product is at most `total_rows`), the target
vectors are split at that index in Python slice semantics, the feature
partitions have matching row counts, and without scaling the feature
partitions are exactly the slices `[0, test_start)` and
`[test_start, end)`. -/
theorem C3_split_formula (E : Libs) (df : List RawRow) (td : ℚ) (sc : Bool)
    (r : PResult) (h : preprocess_data E df td sc = .ok r) :
    ∃ f, inferredFrequency E df = .ok f ∧
      splitIndexE E df td = .ok (pyInt (((keptL E df).length : ℚ) - td * (86400 / f))) ∧
      r.train_targets = pyTake (tIdx E df td f) (targetsAll E df) ∧
      r.test_targets = pyDrop (tIdx E df td f) (targetsAll E df) ∧
      r.train.length = (pyTake (tIdx E df td f) (featMat E df)).length ∧
      r.test.length = (pyDrop (tIdx E df td f) (featMat E df)).length ∧
      (sc = false → r.train = pyTake (tIdx E df td f) (featMat E df) ∧
                    r.test = pyDrop (tIdx E df td f) (featMat E df)) := by
  obtain ⟨f, g, hf, htr, hte, ht1, ht2, -, hsF, -, -⟩ := preprocess_ok_char E df td sc r h
  refine ⟨f, hf, by simp [splitIndexE, tIdx, hf, Except.map], ht1, ht2,
    by rw [htr, List.length_map], by rw [hte, List.length_map], ?_⟩
  intro hsc
  rw [hsF hsc] at htr hte
  rw [List.map_id] at htr hte
  exact ⟨htr, hte⟩

/-- C9: the caller's dataframe is mutated in place by lines 55-71 before the
first rebinding copy is made — after the call, every row of the caller's
table has its `sun_rise_set` null replaced by "neither", its timestamp
converted (datetimes in the model), the ordinal `yday`/`month`/`wday`
columns and the eight derived sine/cosine columns added, and all other
original columns unchanged. -/
theorem C9_in_place_mutation (E : Libs) (df : List RawRow) (i : ℕ) (rr : RawRow)
    (h : df[i]? = some rr) :
    ∃ m, (mutTable E df)[i]? = some m ∧
      m.sun_rise_set = rr.sun_rise_set.getD "neither" ∧
      m.timestamp = rr.timestamp ∧
      m.yday = E.yday rr.timestamp ∧
      m.month = E.month rr.timestamp ∧
      m.wday = E.wday rr.timestamp ∧
      m.yday_sin = cycQ E.sinQ (E.yday rr.timestamp) (ydayMax E df) ∧
      m.yday_cos = cycQ E.cosQ (E.yday rr.timestamp) (ydayMax E df) ∧
      m.month_sin = cycQ E.sinQ (E.month rr.timestamp) (monthMax E df) ∧
      m.month_cos = cycQ E.cosQ (E.month rr.timestamp) (monthMax E df) ∧
      m.wday_sin = cycQ E.sinQ (E.wday rr.timestamp) (wdayMax E df) ∧
      m.wday_cos = cycQ E.cosQ (E.wday rr.timestamp) (wdayMax E df) ∧
      m.num_time_sin = cycV E.sinQ rr.num_time (numTimeMax df) ∧
      m.num_time_cos = cycV E.cosQ rr.num_time (numTimeMax df) ∧
      m.elec_cons = rr.elec_cons ∧
      m.week_day_end = rr.week_day_end ∧
      m.num_time = rr.num_time ∧
      m.day_of_week = rr.day_of_week ∧
      m.extraNum = rr.extraNum ∧
      m.extraCat = rr.extraCat ∧
      m.aux = rr.aux := by
  refine ⟨mutRow E (ydayMax E df) (monthMax E df) (wdayMax E df) (numTimeMax df) rr,
    ?_, rfl, rfl, rfl, rfl, rfl, rfl, rfl, rfl, rfl, rfl, rfl, rfl, rfl, rfl, rfl,
    rfl, rfl, rfl, rfl, rfl⟩
  simp [mutTable, List.getElem?_map, h]

/-- C10: the returned target vectors are the raw `elec_cons` values of the
filtered table split at the split index, untouched by the scaling step:
with `scale` true they equal the slices of `targetsAll`, and they coincide
with the targets of a `scale = False` run on the same input. -/
theorem C10_targets_never_scaled (E : Libs) (df : List RawRow) (td : ℚ)
    (r r2 : PResult) (h : preprocess_data E df td true = .ok r)
    (h2 : preprocess_data E df td false = .ok r2) :
    ∃ f, inferredFrequency E df = .ok f ∧
      r.train_targets = pyTake (tIdx E df td f) (targetsAll E df) ∧
      r.test_targets = pyDrop (tIdx E df td f) (targetsAll E df) ∧
      r2.train_targets = r.train_targets ∧ r2.test_targets = r.test_targets := by
  obtain ⟨f, g, hf, -, -, ht1, ht2, -, -, -, -⟩ := preprocess_ok_char E df td true r h
  obtain ⟨f2, g2, hf2, -, -, h21, h22, -, -, -, -⟩ := preprocess_ok_char E df td false r2 h2
  have hff : f = f2 := by
    have := hf.symm.trans hf2
    injection this
  subst hff
  exact ⟨f, hf, ht1, ht2, h21.trans ht1.symm, h22.trans ht2.symm⟩

/-- C1: with `scale` true, the min-max parameters are fitted exclusively on
the training partition and the identical fitted transform is applied to
both partitions; moreover the scaling block satisfies two-run
noninterference: runs on the same training partition with different
testing partitions produce the same fitted transform and the same scaled
training output, each testing partition being transformed with the
training-fitted parameters. -/
theorem C1_scaler_leakage_free (E : Libs) (df : List RawRow) (td : ℚ) (r : PResult)
    (tr te1 te2 : List (List Val)) (o1 o2 : List (List Val) × List (List Val))
    (hr : preprocess_data E df td true = .ok r)
    (h1 : scaleBlock tr te1 = .ok o1) (h2 : scaleBlock tr te2 = .ok o2) :
    (∃ f, inferredFrequency E df = .ok f ∧
      r.train = (pyTake (tIdx E df td f) (featMat E df)).map
        (mmTransform (mmFit (pyTake (tIdx E df td f) (featMat E df)))) ∧
      r.test = (pyDrop (tIdx E df td f) (featMat E df)).map
        (mmTransform (mmFit (pyTake (tIdx E df td f) (featMat E df))))) ∧
    o1.1 = tr.map (mmTransform (mmFit tr)) ∧
    o1.1 = o2.1 ∧
    o1.2 = te1.map (mmTransform (mmFit tr)) ∧
    o2.2 = te2.map (mmTransform (mmFit tr)) := by
  obtain ⟨f, g, hf, htr, hte, -, -, hsT, -, -, -⟩ := preprocess_ok_char E df td true r hr
  rw [hsT rfl] at htr hte
  unfold scaleBlock at h1 h2
  by_cases he : tr.isEmpty
  · rw [if_pos he] at h1; cases h1
  · rw [if_neg he] at h1
    rw [if_neg he] at h2
    by_cases he1 : te1.isEmpty
    · rw [if_pos he1] at h1; cases h1
    · rw [if_neg he1] at h1
      by_cases he2 : te2.isEmpty
      · rw [if_pos he2] at h2; cases h2
      · rw [if_neg he2] at h2
        injection h1 with h1
        injection h2 with h2
        refine ⟨⟨f, hf, htr, hte⟩, ?_, ?_, ?_, ?_⟩
        · rw [← h1]
        · rw [← h1, ← h2]
        · rw [← h1]
        · rw [← h2]

/-- C5 (amended): on a successful run with a positive number of test days
whose requested test size (the ceiling of `test_days * obs_per_day`) is
smaller than the post-filter row count, the split index lies strictly
between 0 and the row count; the training and testing partitions always
partition the filtered rows, their counts summing to the post-filter
total. -/
theorem C5_split_bounds (E : Libs) (df : List RawRow) (td : ℚ) (sc : Bool)
    (r : PResult) (f : ℚ)
    (h : preprocess_data E df td sc = .ok r)
    (hf : inferredFrequency E df = .ok f)
    (htd : 0 < td)
    (hceil : ⌈td * (86400 / f)⌉ < ((keptL E df).length : ℤ)) :
    0 < tIdx E df td f ∧ tIdx E df td f < ((keptL E df).length : ℤ) ∧
    r.train.length + r.test.length = (keptL E df).length ∧
    r.train_targets.length + r.test_targets.length = (keptL E df).length := by
  have h1f : 1 ≤ f := inferredFrequency_ge_one E df f hf
  have hfpos : 0 < f := lt_of_lt_of_le one_pos h1f
  have hx : 0 < td * (86400 / f) := mul_pos htd (div_pos (by norm_num) hfpos)
  have hcpos : 0 < ⌈td * (86400 / f)⌉ := Int.ceil_pos.mpr hx
  have hmx : (0 : ℚ) ≤ ((keptL E df).length : ℚ) - td * (86400 / f) := by
    have hle : td * (86400 / f) ≤ (⌈td * (86400 / f)⌉ : ℚ) := Int.le_ceil _
    have hcast : ((⌈td * (86400 / f)⌉ : ℚ)) ≤ ((keptL E df).length : ℚ) := by
      exact_mod_cast le_of_lt hceil
    linarith
  have htIdx : tIdx E df td f = ((keptL E df).length : ℤ) - ⌈td * (86400 / f)⌉ := by
    unfold tIdx pyInt
    rw [if_pos hmx]
    rw [show (((keptL E df).length : ℚ) - td * (86400 / f)) =
      (((keptL E df).length : ℤ) : ℚ) + (-(td * (86400 / f))) by push_cast; ring]
    rw [Int.floor_int_add, Int.floor_neg]
    ring
  obtain ⟨f2, g, hf2, htr, hte, ht1, ht2, -, -, -, -⟩ := preprocess_ok_char E df td sc r h
  have hff : f2 = f := by
    have := hf2.symm.trans hf
    injection this
  subst hff
  have hfl := featMat_targets_length E df
  refine ⟨by omega, by omega, ?_, ?_⟩
  · rw [htr, hte, List.length_map, List.length_map]
    rw [pyTake_length_congr (tIdx E df td f2) (featMat E df) (keptL E df) hfl.1,
        pyDrop_length_congr (tIdx E df td f2) (featMat E df) (keptL E df) hfl.1]
    exact pyTake_pyDrop_length _ _
  · rw [ht1, ht2]
    rw [pyTake_length_congr (tIdx E df td f2) (targetsAll E df) (keptL E df) hfl.2,
        pyDrop_length_congr (tIdx E df td f2) (targetsAll E df) (keptL E df) hfl.2]
    exact pyTake_pyDrop_length _ _

/-- C7: if the final training or testing feature table contains a missing
value, `preprocess_data` fails with the corresponding fatal assertion
message (checked training-first, never silently imputed), and on every
successful return neither returned feature table contains a missing
value. -/
theorem C7_missing_values (E : Libs) (df : List RawRow) (td : ℚ) (sc : Bool) :
    (∀ tr te, finalTables E df td sc = .ok (tr, te) →
      (hasNullM tr = true →
        preprocess_data E df td sc = .error "Training Data Contains Missing Values!") ∧
      (hasNullM tr = false → hasNullM te = true →
        preprocess_data E df td sc = .error "Testing Data Contains Missing Values!")) ∧
    (∀ r, preprocess_data E df td sc = .ok r →
      hasNullM r.train = false ∧ hasNullM r.test = false) := by
  constructor
  · intro tr te hft
    unfold finalTables at hft
    cases hf : inferredFrequency E df with
    | error e => rw [hf] at hft; cases hft
    | ok f =>
      simp only [hf] at hft
      constructor
      · intro hnull
        simp [preprocess_data, hf, hft, hnull]
      · intro hn1 hn2
        simp [preprocess_data, hf, hft, hn1, hn2]
  · intro r h
    obtain ⟨-, -, -, -, -, -, -, -, -, hnull1, hnull2⟩ := preprocess_ok_char E df td sc r h
    exact ⟨hnull1, hnull2⟩

/-- C8: rows with non-positive `elec_cons` are dropped before target
extraction — every kept target is strictly positive, the returned target
vectors are the slices of the kept targets, the returned feature tables
are images of the corresponding slices of the kept feature rows (so no
dropped row contributes a feature row), and features and targets are
aligned index-for-index (equal lengths per partition). -/
theorem C8_target_filtering (E : Libs) (df : List RawRow) (td : ℚ) (sc : Bool)
    (r : PResult) (h : preprocess_data E df td sc = .ok r) :
    (∀ v ∈ targetsAll E df, ∃ q : ℚ, v = .num q ∧ 0 < q) ∧
    ∃ f g, inferredFrequency E df = .ok f ∧
      r.train = (pyTake (tIdx E df td f) (featMat E df)).map g ∧
      r.test = (pyDrop (tIdx E df td f) (featMat E df)).map g ∧
      r.train_targets = pyTake (tIdx E df td f) (targetsAll E df) ∧
      r.test_targets = pyDrop (tIdx E df td f) (targetsAll E df) ∧
      r.train.length = r.train_targets.length ∧
      r.test.length = r.test_targets.length ∧
      (∀ v ∈ r.train_targets, ∃ q : ℚ, v = .num q ∧ 0 < q) ∧
      (∀ v ∈ r.test_targets, ∃ q : ℚ, v = .num q ∧ 0 < q) := by
  have hpos := targetsAll_pos E df
  obtain ⟨f, g, hf, htr, hte, ht1, ht2, -, -, -, -⟩ := preprocess_ok_char E df td sc r h
  have hfl := featMat_targets_length E df
  have hlen : (featMat E df).length = (targetsAll E df).length := hfl.1.trans hfl.2.symm
  refine ⟨hpos, f, g, hf, htr, hte, ht1, ht2, ?_, ?_, ?_, ?_⟩
  · rw [htr, ht1, List.length_map]
    exact pyTake_length_congr _ _ _ hlen
  · rw [hte, ht2, List.length_map]
    exact pyDrop_length_congr _ _ _ hlen
  · intro v hv
    rw [ht1] at hv
    exact hpos v (mem_pyTake hv)
  · intro v hv
    rw [ht2] at hv
    exact hpos v (mem_pyDrop hv)

/-- C4: when preprocessing succeeds, `evaluate_models` runs the fixed
six-model roster (regularized linear regression, nearest-neighbors,
support-vector, random-forest, extremely-randomized-trees, boosted-tree
regression) and returns exactly one comparison table of six records with
the columns model/train_time/test_time/mape, the numeric columns passed
through the float32 coercion. -/
theorem C4_harness_roster (E : Libs) (oracle : MConfig → PResult → ℚ × ℚ × ℚ)
    (f32 : ℚ → ℚ) (df : List RawRow) (r : PResult)
    (h : preprocess_data E df 183 true = .ok r) :
    evaluate_models E oracle f32 df =
      ([], some (roster.map (fun cfg => coerce32 f32 (implement_model oracle cfg r)))) ∧
    (roster.map (fun cfg => coerce32 f32 (implement_model oracle cfg r))).length = 6 ∧
    (roster.map (fun cfg => coerce32 f32 (implement_model oracle cfg r))).map MRec.model =
      ["elasticnet", "knn", "svm", "rf", "et", "adaboost"] ∧
    roster.map MConfig.kind =
      ["ElasticNet", "KNeighborsRegressor", "SVR", "RandomForestRegressor",
       "ExtraTreesRegressor", "AdaBoostRegressor"] ∧
    ∀ rec ∈ roster.map (fun cfg => coerce32 f32 (implement_model oracle cfg r)),
      ∃ a b c : ℚ, rec.train_time = f32 a ∧ rec.test_time = f32 b ∧ rec.mape = f32 c := by
  refine ⟨by simp [evaluate_models, h], by simp [roster], ?_, by simp [roster], ?_⟩
  · simp [roster, coerce32, implement_model]
  · intro rec hrec
    simp only [List.mem_map] at hrec
    obtain ⟨cfg, -, hc⟩ := hrec
    exact ⟨(oracle cfg r).1, (oracle cfg r).2.1, (oracle cfg r).2.2,
      by rw [← hc]; rfl, by rw [← hc]; rfl, by rw [← hc]; rfl⟩

/-- C6: when preprocessing fails, `evaluate_models` catches the exception,
surfaces its message (the printed line), returns an absent result, and
consults no model: its output is identical under any two Model Runner
oracles and float32 coercions. -/
theorem C6_recovery_boundary (E : Libs) (df : List RawRow) (e : String)
    (o1 o2 : MConfig → PResult → ℚ × ℚ × ℚ) (f1 f2 : ℚ → ℚ)
    (h : preprocess_data E df 183 true = .error e) :
    evaluate_models E o1 f1 df = (["Error processing data:  " ++ e], none) ∧
    evaluate_models E o1 f1 df = evaluate_models E o2 f2 df := by
  constructor
  · simp [evaluate_models, h]
  · simp [evaluate_models, h]

/-! Concrete counterexamples and witnesses. The `Rat` arithmetic operations
are restored to their default reducibility so that `decide` can evaluate
the pipeline on the concrete tables. -/

attribute [local semireducible] Rat.add Rat.sub Rat.mul Rat.inv Rat.ofScientific

/-- C2 counterexample: on `tblHalf` (timestamp deltas 1/2 and 3/2 seconds)
the first strictly positive difference is 1/2, but the pipeline infers the
interval 3/2, because the loop condition `while frequency < 1` also skips
positive differences below one second. -/
theorem C2_counterexample :
    inferredFrequency libs1 tblHalf = .ok (3 / 2) ∧
    specFirstPosDiff ((keptL libs1 tblHalf).map (fun p => p.2.ts)) = some (1 / 2) ∧
    ¬((3 : ℚ) / 2 = 1 / 2) :=
  ⟨by decide, by decide, by decide⟩

/-- C3 counterexample: on `tblTen` (ten rows, 5/4 observations per day,
one test day) the claim formula `total_rows - round(test_days * obs_per_day)`
gives 9, but the pipeline computes `int(10 - 1.25) = 8` (truncation, not
rounding of the product), so the training partition has 8 rows, not 9. -/
theorem C3_counterexample :
    preprocess_data libs1 tblTen 1 false = .ok resTen ∧
    inferredFrequency libs1 tblTen = .ok 69120 ∧
    (keptL libs1 tblTen).length = 10 ∧
    splitIndexE libs1 tblTen 1 = .ok 8 ∧
    resTen.train.length = 8 ∧
    (10 : ℤ) - round ((1 : ℚ) * (86400 / 69120)) = 9 ∧
    ¬((8 : ℤ) = 9) :=
  ⟨by decide, by decide, by decide, by decide, by decide, by decide, by decide⟩

/-- C5 counterexample: on `tbl3d` (three daily rows) with the positive
`test_days = 5`, frequency inference succeeds and the run completes, yet
the computed split index is -2, violating `0 < test_start`. -/
theorem C5_counterexample :
    (0 : ℚ) < 5 ∧
    preprocess_data libs1 tbl3d 5 false = .ok res3d ∧
    inferredFrequency libs1 tbl3d = .ok 86400 ∧
    splitIndexE libs1 tbl3d 5 = .ok (-2) ∧
    ¬(0 < (-2 : ℤ)) :=
  ⟨by decide, by decide, by decide, by decide, by decide⟩

/-- Witness for C1 at the table `tbl4` and two concrete scaling runs that
share a training matrix and differ in the testing matrix. -/
theorem C1_scaler_leakage_free_witness :
    preprocess_data libs1 tbl4 1 true = .ok res4s ∧
    scaleBlock [[Val.num 0], [Val.num 1]] [[Val.num 5]] =
      .ok ([[Val.num 0], [Val.num 1]], [[Val.num 5]]) ∧
    scaleBlock [[Val.num 0], [Val.num 1]] [[Val.num 7]] =
      .ok ([[Val.num 0], [Val.num 1]], [[Val.num 7]]) ∧
    ((∃ f, inferredFrequency libs1 tbl4 = .ok f ∧
      res4s.train = (pyTake (tIdx libs1 tbl4 1 f) (featMat libs1 tbl4)).map
        (mmTransform (mmFit (pyTake (tIdx libs1 tbl4 1 f) (featMat libs1 tbl4)))) ∧
      res4s.test = (pyDrop (tIdx libs1 tbl4 1 f) (featMat libs1 tbl4)).map
        (mmTransform (mmFit (pyTake (tIdx libs1 tbl4 1 f) (featMat libs1 tbl4))))) ∧
     ([[Val.num 0], [Val.num 1]] : List (List Val)) =
       [[Val.num 0], [Val.num 1]].map (mmTransform (mmFit [[Val.num 0], [Val.num 1]])) ∧
     ([[Val.num 0], [Val.num 1]] : List (List Val)) = [[Val.num 0], [Val.num 1]] ∧
     ([[Val.num 5]] : List (List Val)) =
       [[Val.num 5]].map (mmTransform (mmFit [[Val.num 0], [Val.num 1]])) ∧
     ([[Val.num 7]] : List (List Val)) =
       [[Val.num 7]].map (mmTransform (mmFit [[Val.num 0], [Val.num 1]]))) :=
  ⟨by decide, by decide, by decide,
   C1_scaler_leakage_free libs1 tbl4 1 res4s [[Val.num 0], [Val.num 1]]
     [[Val.num 5]] [[Val.num 7]] ([[Val.num 0], [Val.num 1]], [[Val.num 5]])
     ([[Val.num 0], [Val.num 1]], [[Val.num 7]])
     (by decide) (by decide) (by decide)⟩

/-- Witness for C2 at `tbl4` (a successful inference of the daily interval)
and at the empty table (a failing scan that aborts the pipeline). -/
theorem C2_frequency_inference_witness :
    (1 ≤ (86400 : ℚ) ∧
     splitIndexE libs1 tbl4 1 =
       .ok (pyInt (((keptL libs1 tbl4).length : ℚ) - 1 * (86400 / 86400))) ∧
     ∃ k a b, tsLook libs1 tbl4 k = some a ∧ tsLook libs1 tbl4 (k + 1) = some b ∧
       b - a = 86400 ∧
       ∀ j < k, ∃ a2 b2, tsLook libs1 tbl4 j = some a2 ∧
         tsLook libs1 tbl4 (j + 1) = some b2 ∧ b2 - a2 < 1) ∧
    preprocess_data libs1 ([] : List RawRow) 183 true = .error "KeyError: 1" :=
  ⟨(C2_frequency_inference libs1 tbl4 1 true).1 86400 (by decide),
   (C2_frequency_inference libs1 ([] : List RawRow) 183 true).2 "KeyError: 1" (by decide)⟩

/-- Witness for C3 at `tbl4` with one test day and no scaling. -/
theorem C3_split_formula_witness :
    preprocess_data libs1 tbl4 1 false = .ok res4u ∧
    (∃ f, inferredFrequency libs1 tbl4 = .ok f ∧
      splitIndexE libs1 tbl4 1 =
        .ok (pyInt (((keptL libs1 tbl4).length : ℚ) - 1 * (86400 / f))) ∧
      res4u.train_targets = pyTake (tIdx libs1 tbl4 1 f) (targetsAll libs1 tbl4) ∧
      res4u.test_targets = pyDrop (tIdx libs1 tbl4 1 f) (targetsAll libs1 tbl4) ∧
      res4u.train.length = (pyTake (tIdx libs1 tbl4 1 f) (featMat libs1 tbl4)).length ∧
      res4u.test.length = (pyDrop (tIdx libs1 tbl4 1 f) (featMat libs1 tbl4)).length ∧
      (false = false → res4u.train = pyTake (tIdx libs1 tbl4 1 f) (featMat libs1 tbl4) ∧
                       res4u.test = pyDrop (tIdx libs1 tbl4 1 f) (featMat libs1 tbl4))) :=
  ⟨by decide, C3_split_formula libs1 tbl4 1 false res4u (by decide)⟩

/-- Witness for C4 at `tblW` with a concrete oracle and the identity
float32 coercion. -/
theorem C4_harness_roster_witness :
    preprocess_data libs1 tblW 183 true = .ok resW ∧
    (evaluate_models libs1 oracle0 (fun q => q) tblW =
      ([], some (roster.map
        (fun cfg => coerce32 (fun q => q) (implement_model oracle0 cfg resW)))) ∧
    (roster.map
      (fun cfg => coerce32 (fun q => q) (implement_model oracle0 cfg resW))).length = 6 ∧
    (roster.map
      (fun cfg => coerce32 (fun q => q) (implement_model oracle0 cfg resW))).map MRec.model =
        ["elasticnet", "knn", "svm", "rf", "et", "adaboost"] ∧
    roster.map MConfig.kind =
      ["ElasticNet", "KNeighborsRegressor", "SVR", "RandomForestRegressor",
       "ExtraTreesRegressor", "AdaBoostRegressor"] ∧
    ∀ rec ∈ roster.map (fun cfg => coerce32 (fun q => q) (implement_model oracle0 cfg resW)),
      ∃ a b c : ℚ, rec.train_time = (fun q => q) a ∧ rec.test_time = (fun q => q) b ∧
        rec.mape = (fun q => q) c) :=
  ⟨by decide, C4_harness_roster libs1 oracle0 (fun q => q) tblW resW (by decide)⟩

/-- Witness for C5 at `tbl4` with one test day: the split index is 3,
strictly between 0 and the four kept rows, and the partition sizes sum to
four. -/
theorem C5_split_bounds_witness :
    preprocess_data libs1 tbl4 1 true = .ok res4s ∧
    inferredFrequency libs1 tbl4 = .ok 86400 ∧
    (0 : ℚ) < 1 ∧
    ⌈(1 : ℚ) * (86400 / 86400)⌉ < ((keptL libs1 tbl4).length : ℤ) ∧
    (0 < tIdx libs1 tbl4 1 86400 ∧
     tIdx libs1 tbl4 1 86400 < ((keptL libs1 tbl4).length : ℤ) ∧
     res4s.train.length + res4s.test.length = (keptL libs1 tbl4).length ∧
     res4s.train_targets.length + res4s.test_targets.length = (keptL libs1 tbl4).length) :=
  ⟨by decide, by decide, by decide, by decide,
   C5_split_bounds libs1 tbl4 1 true res4s 86400 (by decide) (by decide) (by decide)
     (by decide)⟩

/-- Witness for C6 at the empty table, whose preprocessing raises
`KeyError: 1`: the harness reports the message, returns nothing, and its
output does not depend on the oracle or the coercion. -/
theorem C6_recovery_boundary_witness :
    evaluate_models libs1 oracle0 (fun q => q) ([] : List RawRow) =
      (["Error processing data:  " ++ "KeyError: 1"], none) ∧
    evaluate_models libs1 oracle0 (fun q => q) ([] : List RawRow) =
      evaluate_models libs1 oracle1 (fun q => q + 1) ([] : List RawRow) :=
  C6_recovery_boundary libs1 [] "KeyError: 1" oracle0 oracle1 (fun q => q) (fun q => q + 1)
    (by decide)

/-- Witness for C7 at `tblNa`, whose all-missing extra column survives into
the final training table: the run aborts with the training assertion
message. -/
theorem C7_missing_values_witness :
    finalTables libs1 tblNa 1 true = .ok (trNa, teNa) ∧
    hasNullM trNa = true ∧
    preprocess_data libs1 tblNa 1 true = .error "Training Data Contains Missing Values!" :=
  ⟨by decide, by decide,
   ((C7_missing_values libs1 tblNa 1 true).1 trNa teNa (by decide)).1 (by decide)⟩

/-- Witness for C8 at `tbl4` with one test day and scaling. -/
theorem C8_target_filtering_witness :
    preprocess_data libs1 tbl4 1 true = .ok res4s ∧
    ((∀ v ∈ targetsAll libs1 tbl4, ∃ q : ℚ, v = .num q ∧ 0 < q) ∧
     ∃ f g, inferredFrequency libs1 tbl4 = .ok f ∧
      res4s.train = (pyTake (tIdx libs1 tbl4 1 f) (featMat libs1 tbl4)).map g ∧
      res4s.test = (pyDrop (tIdx libs1 tbl4 1 f) (featMat libs1 tbl4)).map g ∧
      res4s.train_targets = pyTake (tIdx libs1 tbl4 1 f) (targetsAll libs1 tbl4) ∧
      res4s.test_targets = pyDrop (tIdx libs1 tbl4 1 f) (targetsAll libs1 tbl4) ∧
      res4s.train.length = res4s.train_targets.length ∧
      res4s.test.length = res4s.test_targets.length ∧
      (∀ v ∈ res4s.train_targets, ∃ q : ℚ, v = .num q ∧ 0 < q) ∧
      (∀ v ∈ res4s.test_targets, ∃ q : ℚ, v = .num q ∧ 0 < q)) :=
  ⟨by decide, C8_target_filtering libs1 tbl4 1 true res4s (by decide)⟩

/-- Witness for C9 at the first row of `tbl4`. -/
theorem C9_in_place_mutation_witness :
    tbl4[0]? = some (mkRow 0 (.num 1)) ∧
    (∃ m, (mutTable libs1 tbl4)[0]? = some m ∧
      m.sun_rise_set = (mkRow 0 (.num 1)).sun_rise_set.getD "neither" ∧
      m.timestamp = (mkRow 0 (.num 1)).timestamp ∧
      m.yday = libs1.yday (mkRow 0 (.num 1)).timestamp ∧
      m.month = libs1.month (mkRow 0 (.num 1)).timestamp ∧
      m.wday = libs1.wday (mkRow 0 (.num 1)).timestamp ∧
      m.yday_sin = cycQ libs1.sinQ (libs1.yday (mkRow 0 (.num 1)).timestamp) (ydayMax libs1 tbl4) ∧
      m.yday_cos = cycQ libs1.cosQ (libs1.yday (mkRow 0 (.num 1)).timestamp) (ydayMax libs1 tbl4) ∧
      m.month_sin = cycQ libs1.sinQ (libs1.month (mkRow 0 (.num 1)).timestamp) (monthMax libs1 tbl4) ∧
      m.month_cos = cycQ libs1.cosQ (libs1.month (mkRow 0 (.num 1)).timestamp) (monthMax libs1 tbl4) ∧
      m.wday_sin = cycQ libs1.sinQ (libs1.wday (mkRow 0 (.num 1)).timestamp) (wdayMax libs1 tbl4) ∧
      m.wday_cos = cycQ libs1.cosQ (libs1.wday (mkRow 0 (.num 1)).timestamp) (wdayMax libs1 tbl4) ∧
      m.num_time_sin = cycV libs1.sinQ (mkRow 0 (.num 1)).num_time (numTimeMax tbl4) ∧
      m.num_time_cos = cycV libs1.cosQ (mkRow 0 (.num 1)).num_time (numTimeMax tbl4) ∧
      m.elec_cons = (mkRow 0 (.num 1)).elec_cons ∧
      m.week_day_end = (mkRow 0 (.num 1)).week_day_end ∧
      m.num_time = (mkRow 0 (.num 1)).num_time ∧
      m.day_of_week = (mkRow 0 (.num 1)).day_of_week ∧
      m.extraNum = (mkRow 0 (.num 1)).extraNum ∧
      m.extraCat = (mkRow 0 (.num 1)).extraCat ∧
      m.aux = (mkRow 0 (.num 1)).aux) :=
  ⟨by decide, C9_in_place_mutation libs1 tbl4 0 (mkRow 0 (.num 1)) (by decide)⟩

/-- Witness for C10 at `tbl4`: the scaled and the unscaled run return the
same target vectors, the raw positive consumptions. -/
theorem C10_targets_never_scaled_witness :
    preprocess_data libs1 tbl4 1 true = .ok res4s ∧
    preprocess_data libs1 tbl4 1 false = .ok res4u ∧
    (∃ f, inferredFrequency libs1 tbl4 = .ok f ∧
      res4s.train_targets = pyTake (tIdx libs1 tbl4 1 f) (targetsAll libs1 tbl4) ∧
      res4s.test_targets = pyDrop (tIdx libs1 tbl4 1 f) (targetsAll libs1 tbl4) ∧
      res4u.train_targets = res4s.train_targets ∧
      res4u.test_targets = res4s.test_targets) :=
  ⟨by decide, by decide,
   C10_targets_never_scaled libs1 tbl4 1 res4s res4u (by decide) (by decide)⟩
